import Mathlib

/-!
# Local library catalog: book and book-instance request handlers

A shallow embedding of `controllers/bookController.js`,
`controllers/bookinstanceController.js`, `models/genre.js` and
`models/bookinstance.js`.

A handler is a function from an environment (how the document store and the
libraries answer), a store state and a request to a `Result`: the response the
handler produces, the store afterwards and the persistence operations it
issued, in order.  An exception raised while the handler or one of its
callbacks runs is the outcome `Outcome.throw`.
-/

namespace LocalLibrary

/-! ## JavaScript values -/

/-- A JavaScript error object: constructor name, message and the optional
`status` property the handlers set on it. -/
structure JsError where
  name : String
  message : String
  status : Option Nat
deriving DecidableEq, Repr

/-- Result of evaluating an identifier that no enclosing scope declares. -/
def referenceError (ident : String) : JsError :=
  ⟨"ReferenceError", ident ++ " is not defined", none⟩

/-- Result of reading property `prop` of `null`. -/
def nullPropertyError (prop : String) : JsError :=
  ⟨"TypeError", "Cannot read properties of null (reading " ++ prop ++ ")", none⟩

/-- String conversion of a possibly undefined string inside a template literal. -/
def templateString : Option String → String
  | none => "undefined"
  | some s => s

/-- Value of the multi-select control `genre` in a form-encoded body: the key
is missing, occurs once, or occurs several times (an array). -/
inductive FormValue where
  | absent
  | single (v : String)
  | multi (vs : List String)
deriving DecidableEq, Repr

/-- `Array.isArray`. -/
def FormValue.isArray : FormValue → Bool
  | .multi _ => true
  | _ => false

/-- A form-encoded request body.  Every text control contributes at most one
value, looked up by name in `text` (`none` is `undefined`); the multi-select
`genre` is kept apart because it is the only control that may repeat. -/
structure Body where
  text : String → Option String
  genre : FormValue

/-- Assignment `req.body[k] = v` for a text control. -/
def Body.set (b : Body) (k v : String) : Body :=
  { b with text := fun j => if j = k then some v else b.text j }

/-- A request: the route parameter `req.params.id` and the body. -/
structure Request where
  id : String
  body : Body

/-! ## Sanitizers and validators (express-validator over validator.js) -/

/-- Characters matched by `\s` in a JavaScript regular expression. -/
def isWhitespace (c : Char) : Bool :=
  let n := c.toNat
  n = 0x20 || (0x09 ≤ n && n ≤ 0x0d) || n = 0xa0 || n = 0x1680 ||
    (0x2000 ≤ n && n ≤ 0x200a) || n = 0x2028 || n = 0x2029 || n = 0x202f ||
    n = 0x205f || n = 0x3000 || n = 0xfeff

/-- The sanitizer `trim()`: whitespace removed from both ends. -/
def trim (s : String) : String :=
  ⟨((s.data.dropWhile isWhitespace).reverse.dropWhile isWhitespace).reverse⟩

/-- Replacement of one character by `escape()`. -/
def escapeChar (c : Char) : List Char :=
  let n := c.toNat
  if n = 38 then "&amp;".data
  else if n = 34 then "&quot;".data
  else if n = 39 then "&#x27;".data
  else if n = 60 then "&lt;".data
  else if n = 62 then "&gt;".data
  else if n = 47 then "&#x2F;".data
  else if n = 92 then "&#x5C;".data
  else if n = 96 then "&#96;".data
  else [c]

/-- The sanitizer `escape()`: HTML metacharacters replaced by entities. -/
def escape (s : String) : String :=
  ⟨s.data.flatMap escapeChar⟩

/-- The validator `isLength({ min: 1 })`: the string is not empty. -/
def isLengthMin1 (s : String) : Bool :=
  !s.data.isEmpty

/-- String form a standard sanitizer or validator works on: an absent field
is stringified to the empty string. -/
def fieldString : Option String → String
  | none => ""
  | some s => s

/-- One entry of `validationResult(req).array()`. -/
structure ValidationError where
  msg : String
  param : String
  value : String
deriving DecidableEq, Repr

/-- State threaded through a validation chain: the request body, which the
sanitizers rewrite, and the errors recorded so far. -/
structure Chain where
  body : Body
  errors : List ValidationError

/-- A standard sanitizer applied to a text field.  express-validator runs the
sanitizer on the stringified value and assigns the result to the request, so
a field that was absent holds a string afterwards. -/
def sanitizeField (f : String → String) (k : String) (b : Body) : Body :=
  b.set k (f (fieldString (b.text k)))

/-- The chain `body(k, msg).trim().isLength({ min: 1 }).escape()`. -/
def requiredText (k msg : String) (c : Chain) : Chain :=
  let b1 := sanitizeField trim k c.body
  let v := fieldString (b1.text k)
  let errs := if isLengthMin1 v then c.errors else c.errors ++ [⟨msg, k, v⟩]
  ⟨sanitizeField escape k b1, errs⟩

/-- The chain `body("genre.*").escape()`: every element of the array. -/
def escapeGenres (c : Chain) : Chain :=
  match c.body.genre with
  | .multi vs => ⟨{ c.body with genre := .multi (vs.map escape) }, c.errors⟩
  | _ => c

/-- The first middleware of `book_create_post` and of `book_update_post`:
convert `req.body.genre` to an array.  The body is left alone when
`Array.isArray(req.body.genre)`; otherwise the field becomes `[]` when its
type is `"undefined"` and `[req.body.genre]` when it is not. -/
def convertGenreToArray (b : Body) : Body :=
  match b.genre with
  | .multi _ => b
  | .absent => { b with genre := .multi [] }
  | .single v => { b with genre := .multi [v] }

/-- The four required text chains and the genre wildcard chain of a book
form, run after the genre conversion, with the messages of the handler. -/
def bookChain (mTitle mAuthor mSummary mIsbn : String) (b : Body) : Chain :=
  escapeGenres
    (requiredText "isbn" mIsbn
      (requiredText "summary" mSummary
        (requiredText "author" mAuthor
          (requiredText "title" mTitle ⟨convertGenreToArray b, []⟩))))

/-- The property read `errors.isEmpty`, without a call: its value is the
method itself, a function object, which is truthy whatever the errors are. -/
def isEmptyProperty (_errors : List ValidationError) : Bool := true

/-- The call `errors.isEmpty()`. -/
def isEmptyCall (errors : List ValidationError) : Bool := errors.isEmpty

/-! ## Records -/

/-- Modelled from the spec: the Author model (`models/author.js`) is not among
the sources; an Author has a generated key, name fields and birth and death
dates. -/
structure Author where
  _id : String
  first_name : Option String
  family_name : Option String
  date_of_birth : Option Nat
  date_of_death : Option Nat
deriving DecidableEq, Repr

/-- A Genre document (`models/genre.js`). -/
structure Genre where
  _id : String
  name : Option String
deriving DecidableEq, Repr

/-- Modelled from the spec: the Book model (`models/book.js`) is not among the
sources; a Book has a generated key, title, summary, ISBN, a reference to one
Author and references to Genres.  The paths are those the handlers pass to
`new Book`; identifiers are opaque strings and a path that was never set is
`none`. -/
structure Book where
  _id : String
  title : Option String
  author : Option String
  summary : Option String
  isbn : Option String
  genre : List String
deriving DecidableEq, Repr

/-- A BookInstance document (`models/bookinstance.js`).  The reference `book`
is an opaque key; `status` always has a value because of its default;
`due_back` is a time stamp, `none` for null. -/
structure BookInstance where
  _id : String
  book : Option String
  imprint : Option String
  status : String
  due_back : Option Nat
deriving DecidableEq, Repr

/-- The virtual `url` of a Genre: the template literal is tagged with the
identifier `$`, which nothing in `models/genre.js` declares, so reading the
virtual raises before any string is built. -/
def Genre.url (_g : Genre) : Except JsError String :=
  .error (referenceError "$")

/-- The virtual `url` of a BookInstance. -/
def BookInstance.url (bi : BookInstance) : String :=
  "catalog/bookinstance/" ++ bi._id

/-- The `enum` of the `status` path. -/
def statusEnum : List String := ["Available", "Maintenance", "Loaned", "Reserved"]

/-- The `required` validator: the path is set and, for a string, not empty. -/
def requiredOk : Option String → Bool
  | none => false
  | some s => !s.data.isEmpty

/-- Schema validation of a BookInstance, as run by `save`: `book`, `imprint`
and `status` are required and `status` is one of the enumerated values. -/
def BookInstance.validate (bi : BookInstance) : Bool :=
  requiredOk bi.book && requiredOk bi.imprint && requiredOk (some bi.status) &&
    statusEnum.contains bi.status

/-- Value of `req.body.due_back` once its chain has run: still undefined,
still the empty string, or the result of `toDate()` (`none` is null). -/
inductive DateInput where
  | undefined
  | blank
  | date (d : Option Nat)
deriving DecidableEq, Repr

/-- Array cast of the `genre` path. -/
def castGenre : FormValue → List String
  | .absent => []
  | .single v => [v]
  | .multi vs => vs

/-! ## Store, environment and results -/

/-- The document store: one collection per entity. -/
structure Store where
  books : List Book
  bookinstances : List BookInstance
  authors : List Author
  genres : List Genre
deriving DecidableEq, Repr

/-- A persistence operation issued by a handler. -/
inductive Op where
  | authorFind
  | genreFind
  | bookFindTitles
  | bookFindById (id : String)
  | bookSave (doc : Book)
  | bookFindByIdAndUpdate (id : String) (doc : Book)
  | bookFindByIdAndRemove (id : String)
  | instanceFindByBook (id : String)
  | instanceFindById (id : String)
  | instanceSave (doc : BookInstance)
  | instanceFindByIdAndRemove (id : String)
deriving DecidableEq, Repr

/-- What the handlers do not control: which persistence operations report an
error (a malformed identifier included), the clock, the key generated for a
new document, the date functions of the validation library, and the canonical
path of a Book.  Modelled from the spec: the `url` virtual of the Book model
is not among the sources; it is a path derived from the key. -/
structure Env where
  fails : Op → Option JsError
  now : Nat
  newId : String
  isISO8601 : String → Bool
  toDate : String → Option Nat
  bookUrl : String → String

/-- `new BookInstance({ book, imprint, status, due_back })`: a path given as
undefined takes its schema default (`"Maintenance"`, `Date.now`). -/
def newBookInstance (env : Env) (book imprint status : Option String)
    (due_back : DateInput) : BookInstance :=
  { _id := env.newId
    book := book
    imprint := imprint
    status := match status with
      | none => "Maintenance"
      | some s => s
    due_back := match due_back with
      | .undefined => some env.now
      | .blank => none
      | .date d => d }

/-- A genre offered by the book form, with the `checked` mark. -/
structure GenreChoice where
  genre : Genre
  checked : Bool
deriving DecidableEq, Repr

/-- The data object passed to `res.render`, per view. -/
inductive ViewData where
  | bookDetail (title : Option String) (book : Book) (author : Option Author)
      (book_instances : List BookInstance)
  | bookForm (title : String) (authors : List Author) (genres : List GenreChoice)
      (book : Book) (errors : List ValidationError)
  | bookinstanceDetail (title : String) (bookinstance : BookInstance) (book : Book)
  | bookinstanceForm (title : String) (book_list : List Book)
deriving DecidableEq, Repr

/-- How a handler invocation ends. -/
inductive Outcome where
  | render (view : String) (data : ViewData)
  | redirect (url : String)
  | forward (err : JsError)
  | throw (err : JsError)
deriving DecidableEq, Repr

/-- Result of running a handler. -/
structure Result where
  outcome : Outcome
  store : Store
  ops : List Op
deriving DecidableEq, Repr

/-! ## Queries -/

/-- `Model.findById(id)` on a collection of Books, errors apart. -/
def findBook (books : List Book) (id : String) : Option Book :=
  books.find? (fun b => b._id == id)

/-- `Model.findById(id)` on a collection of BookInstances, errors apart. -/
def findInstance (instances : List BookInstance) (id : String) : Option BookInstance :=
  instances.find? (fun bi => bi._id == id)

/-- `populate("author")`: the referenced Author, null when none has the key. -/
def populateAuthor (authors : List Author) (ref : Option String) : Option Author :=
  match ref with
  | none => none
  | some id => authors.find? (fun a => a._id == id)

/-- `populate("book")`: the referenced Book, null when none has the key. -/
def populateBook (books : List Book) (ref : Option String) : Option Book :=
  match ref with
  | none => none
  | some id => findBook books id

/-- The projection `"title"` of `Book.find({}, "title")`. -/
def projectTitle (b : Book) : Book :=
  { _id := b._id, title := b.title, author := none, summary := none, isbn := none, genre := [] }

/-- One path of a `$set` built from a document: an undefined path is left out
of the update, so the stored value stays. -/
def setPath (new old : Option String) : Option String :=
  match new with
  | some v => some v
  | none => old

/-- The stored Book after the update built from `doc` is applied to it. -/
def applyUpdate (old doc : Book) : Book :=
  { _id := doc._id
    title := setPath doc.title old.title
    author := setPath doc.author old.author
    summary := setPath doc.summary old.summary
    isbn := setPath doc.isbn old.isbn
    genre := doc.genre }

/-- The collection after `findByIdAndUpdate(id, doc)`: the first Book with the
key is updated, the others stay. -/
def updateFirst (id : String) (doc : Book) : List Book → List Book
  | [] => []
  | b :: bs => if b._id = id then applyUpdate b doc :: bs else b :: updateFirst id doc bs

/-- The collection after `findByIdAndRemove(id)`: the first Book with the key
is removed. -/
def removeBook (books : List Book) (id : String) : List Book :=
  books.eraseP (fun b => b._id == id)

/-- The collection after `findByIdAndRemove(id)`: the first BookInstance with
the key is removed. -/
def removeInstance (instances : List BookInstance) (id : String) : List BookInstance :=
  instances.eraseP (fun bi => bi._id == id)

/-- `SameValueZero` test of `Array.prototype.includes` between the keys of a
freshly built document and the key of a fetched Genre: both are key objects,
never the same object, so the test fails whatever the keys hold. -/
def includesByIdentity (_keys : List String) (_key : String) : Bool := false

/-- The error `save` reports when schema validation rejects the document. -/
def schemaError : JsError :=
  ⟨"ValidationError", "BookInstance validation failed", none⟩

/-! ## Handlers of `bookController.js` -/

/-- Display detail page for a specific book. -/
def book_detail (env : Env) (store : Store) (req : Request) : Result :=
  let ops := [Op.bookFindById req.id, Op.instanceFindByBook req.id]
  match env.fails (.bookFindById req.id) with
  | some err => ⟨.forward err, store, ops⟩
  | none =>
    match env.fails (.instanceFindByBook req.id) with
    | some err => ⟨.forward err, store, ops⟩
    | none =>
      match findBook store.books req.id with
      | none => ⟨.forward ⟨"Error", "Book not found", some 404⟩, store, ops⟩
      | some book =>
        ⟨.render "book_detail"
            (.bookDetail book.title book (populateAuthor store.authors book.author)
              (store.bookinstances.filter (fun bi => bi.book == some req.id))),
          store, ops⟩

/-- The re-render of the book form written in `book_create_post`. -/
def book_create_rerender (env : Env) (store : Store) (book : Book)
    (errors : List ValidationError) : Result :=
  let ops := [Op.authorFind, Op.genreFind]
  match env.fails .authorFind with
  | some err => ⟨.forward err, store, ops⟩
  | none =>
    match env.fails .genreFind with
    | some err => ⟨.forward err, store, ops⟩
    | none =>
      ⟨.render "book_form"
          (.bookForm "Create Book" store.authors
            (store.genres.map (fun g => ⟨g, includesByIdentity book.genre g._id⟩))
            book errors),
        store, ops⟩

/-- Handle book create on POST.  The test for validation errors reads the
property `errors.isEmpty` and does not call it.  The Book schema is not among
the sources, so whether `save` accepts the document is left to `env.fails`. -/
def book_create_post (env : Env) (store : Store) (req : Request) : Result :=
  let c := bookChain "Title must not be empty" "Author must be empty"
    "Summary must be empty" "ISBN must be empty" req.body
  let errors := c.errors
  let book : Book :=
    { _id := env.newId
      title := c.body.text "title"
      author := c.body.text "author"
      summary := c.body.text "summary"
      isbn := c.body.text "isbn"
      genre := castGenre c.body.genre }
  if !isEmptyProperty errors then
    book_create_rerender env store book errors
  else
    match env.fails (.bookSave book) with
    | some err => ⟨.forward err, store, [.bookSave book]⟩
    | none =>
      ⟨.redirect (env.bookUrl book._id), { store with books := store.books ++ [book] },
        [.bookSave book]⟩

/-- Handle book delete on POST. -/
def book_delete_post (env : Env) (store : Store) (req : Request) : Result :=
  match env.fails (.bookFindByIdAndRemove req.id) with
  | some err => ⟨.forward err, store, [.bookFindByIdAndRemove req.id]⟩
  | none =>
    ⟨.redirect "/catalog/books", { store with books := removeBook store.books req.id },
      [.bookFindByIdAndRemove req.id]⟩

/-- Handle book update on POST.  In the branch for validation errors the final
callback of `async.parallel` declares its parameters as `(req, res, next)`, so
its first statement `if (err)` reads an identifier nothing declares. -/
def book_update_post (env : Env) (store : Store) (req : Request) : Result :=
  let c := bookChain "Title must not be empty." "Author must not be empty"
    "Summary must not be empty" "ISBN must not be empty" req.body
  let errors := c.errors
  let book : Book :=
    { _id := req.id
      title := c.body.text "title"
      author := c.body.text "author"
      summary := c.body.text "summary"
      isbn := c.body.text "isbn"
      genre := match c.body.genre with
        | .absent => []
        | g => castGenre g }
  if !isEmptyCall errors then
    ⟨.throw (referenceError "err"), store, [.authorFind, .genreFind]⟩
  else
    match env.fails (.bookFindByIdAndUpdate req.id book) with
    | some err => ⟨.forward err, store, [.bookFindByIdAndUpdate req.id book]⟩
    | none =>
      match findBook store.books req.id with
      | none => ⟨.throw (nullPropertyError "url"), store, [.bookFindByIdAndUpdate req.id book]⟩
      | some thebook =>
        ⟨.redirect (env.bookUrl thebook._id),
          { store with books := updateFirst req.id book store.books },
          [.bookFindByIdAndUpdate req.id book]⟩

/-! ## Handlers of `bookinstanceController.js` -/

/-- Display detail page for a specific BookInstance. -/
def bookinstance_detail (env : Env) (store : Store) (req : Request) : Result :=
  let ops := [Op.instanceFindById req.id]
  match env.fails (.instanceFindById req.id) with
  | some err => ⟨.forward err, store, ops⟩
  | none =>
    match findInstance store.bookinstances req.id with
    | none => ⟨.forward ⟨"Error", "Book copy not found", some 404⟩, store, ops⟩
    | some bookinstance =>
      match populateBook store.books bookinstance.book with
      | none => ⟨.throw (nullPropertyError "title"), store, ops⟩
      | some book =>
        ⟨.render "bookinstance_detail"
            (.bookinstanceDetail ("Copy: " ++ templateString book.title) bookinstance book),
          store, ops⟩

/-- Display BookInstance create form on GET.  The handler is declared as
`(req, res)`, so `next` in its callback is an identifier nothing declares. -/
def bookinstance_create_get (env : Env) (store : Store) (_req : Request) : Result :=
  match env.fails .bookFindTitles with
  | some _ => ⟨.throw (referenceError "next"), store, [.bookFindTitles]⟩
  | none =>
    ⟨.render "bookinstance_form"
        (.bookinstanceForm "Create BookInstance" (store.books.map projectTitle)),
      store, [.bookFindTitles]⟩

/-- The chain `body("due_back", "Invalid date").optional({ checkFalsy: true })
.isISO8601().toDate()`: nothing runs on an undefined or empty value. -/
def dueBackChain (env : Env) (c : Chain) : Chain × DateInput :=
  match c.body.text "due_back" with
  | none => (c, .undefined)
  | some s =>
    if s.data.isEmpty then (c, .blank)
    else
      let errs :=
        if env.isISO8601 s then c.errors else c.errors ++ [⟨"Invalid date", "due_back", s⟩]
      (⟨c.body, errs⟩, .date (env.toDate s))

/-- The validation chains of `bookinstance_create_post`, in order. -/
def bookinstanceChain (env : Env) (b : Body) : Chain × DateInput :=
  let c1 := requiredText "book" "Book must be specified" ⟨b, []⟩
  let c2 := requiredText "imprint" "Imprint must be specified" c1
  let c3 : Chain := ⟨sanitizeField escape "status" c2.body, c2.errors⟩
  dueBackChain env c3

/-- The document `bookinstance_create_post` builds from the body once the
chains have run. -/
def builtBookInstance (env : Env) (b : Body) : BookInstance :=
  let cd := bookinstanceChain env b
  newBookInstance env (cd.1.body.text "book") (cd.1.body.text "imprint")
    (cd.1.body.text "status") cd.2

/-- Handle BookInstance create form on POST.  In the branch for validation
errors the data object of `res.render` reads `books`, an identifier nothing
declares (the callback parameter is `book`).  `save` validates the document
against the schema before anything is written. -/
def bookinstance_create_post (env : Env) (store : Store) (req : Request) : Result :=
  let errors := (bookinstanceChain env req.body).1.errors
  let bookinstance := builtBookInstance env req.body
  if !isEmptyCall errors then
    match env.fails .bookFindTitles with
    | some err => ⟨.forward err, store, [.bookFindTitles]⟩
    | none => ⟨.throw (referenceError "books"), store, [.bookFindTitles]⟩
  else if !bookinstance.validate then
    ⟨.forward schemaError, store, [.instanceSave bookinstance]⟩
  else
    match env.fails (.instanceSave bookinstance) with
    | some err => ⟨.forward err, store, [.instanceSave bookinstance]⟩
    | none =>
      ⟨.redirect bookinstance.url,
        { store with bookinstances := store.bookinstances ++ [bookinstance] },
        [.instanceSave bookinstance]⟩

/-- Handle BookInstance delete form on POST.  The handler is declared as
`(req, res)`, so `next` in its callback is an identifier nothing declares. -/
def bookinstance_delete_post (env : Env) (store : Store) (req : Request) : Result :=
  match env.fails (.instanceFindByIdAndRemove req.id) with
  | some _ => ⟨.throw (referenceError "next"), store, [.instanceFindByIdAndRemove req.id]⟩
  | none =>
    ⟨.redirect "/catalog/bookinstances",
      { store with bookinstances := removeInstance store.bookinstances req.id },
      [.instanceFindByIdAndRemove req.id]⟩

/-! ## Sanitized form values -/

/-- The sanitized value of a text field: trimmed, then escaped. -/
def sanitized (b : Body) (k : String) : String :=
  escape (trim (fieldString (b.text k)))

/-- The Book with key `id` whose fields are the sanitized values of a form:
text fields trimmed and escaped, every selected genre escaped. -/
def sanitizedBook (id : String) (b : Body) : Book :=
  { _id := id
    title := some (sanitized b "title")
    author := some (sanitized b "author")
    summary := some (sanitized b "summary")
    isbn := some (sanitized b "isbn")
    genre := (castGenre b.genre).map escape }

/-! ## Sample data -/

/-- An environment in which no operation reports an error. -/
def quietEnv : Env :=
  { fails := fun _ => none
    now := 1700000000000
    newId := "n1"
    isISO8601 := fun s => s.length == 10
    toDate := fun _ => some 1600000000000
    bookUrl := fun id => "/catalog/book/" ++ id }

/-- An environment in which every operation reports the error `e`. -/
def failingEnv (e : JsError) : Env :=
  { quietEnv with fails := fun _ => some e }

/-- The quiet environment with another generated key. -/
def keyEnv (key : String) : Env :=
  { quietEnv with newId := key }

/-- An error reported by the document store. -/
def storeError : JsError := ⟨"MongoServerError", "connection closed", none⟩

/-- A stored Book. -/
def sampleBook : Book :=
  { _id := "b1", title := some "Dune", author := some "a1", summary := some "Sand",
    isbn := some "111", genre := ["g1"] }

/-- A second stored Book. -/
def otherBook : Book :=
  { _id := "b2", title := some "Emma", author := some "a2", summary := some "Match",
    isbn := some "222", genre := [] }

/-- A copy of `sampleBook`. -/
def sampleInstance : BookInstance :=
  { _id := "i1", book := some "b1", imprint := some "Ace 1990", status := "Available",
    due_back := some 5 }

/-- A store with two Books, one copy and one Genre. -/
def sampleStore : Store :=
  { books := [sampleBook, otherBook], bookinstances := [sampleInstance], authors := [],
    genres := [⟨"g1", some "SF"⟩] }

/-- The store with no documents. -/
def emptyStore : Store := { books := [], bookinstances := [], authors := [], genres := [] }

/-- A body without fields. -/
def emptyBody : Body := { text := fun _ => none, genre := .absent }

/-- A book form with every required field filled in. -/
def filledBookBody : Body :=
  { text := fun k =>
      if k = "title" then some " Dune " else if k = "author" then some "a1"
      else if k = "summary" then some "Sand <worms>" else if k = "isbn" then some "111"
      else none
    genre := .single "g1" }

/-- A book form whose title is blank. -/
def blankTitleBody : Body :=
  { text := fun k =>
      if k = "title" then some "  " else if k = "author" then some "a1"
      else if k = "summary" then some "Sand" else if k = "isbn" then some "111"
      else none
    genre := .single "g1" }

/-- A book-instance form whose imprint is empty. -/
def blankImprintBody : Body :=
  { text := fun k =>
      if k = "book" then some "b1" else if k = "imprint" then some ""
      else if k = "status" then some "Available" else none
    genre := .absent }

/-- A book-instance form that leaves `status` and `due_back` out. -/
def noStatusBody : Body :=
  { text := fun k =>
      if k = "book" then some "b1" else if k = "imprint" then some "Ace 1990" else none
    genre := .absent }

/-- A book form that revises the sample Book. -/
def revisedBookBody : Body :=
  { text := fun k =>
      if k = "title" then some " Dune Messiah " else if k = "author" then some "a2"
      else if k = "summary" then some "Sand & <worms>" else if k = "isbn" then some "333"
      else none
    genre := .multi ["g1", "g<2>"] }

/-- A book-instance form whose date control was left empty. -/
def blankDueBackBody : Body :=
  { text := fun k =>
      if k = "book" then some "b1" else if k = "imprint" then some "Ace 1990"
      else if k = "status" then some "Available" else if k = "due_back" then some ""
      else none
    genre := .absent }

/-- A complete book-instance form. -/
def filledInstanceBody : Body :=
  { text := fun k =>
      if k = "book" then some "b1" else if k = "imprint" then some "Ace 1990"
      else if k = "status" then some "Available" else none
    genre := .absent }

/-- The store reached from the empty one by creating a Book through
`book_create_post` and a copy of it through `bookinstance_create_post`. -/
def storeAfterCreates : Store :=
  (bookinstance_create_post (keyEnv "i1")
    (book_create_post (keyEnv "b1") emptyStore ⟨"", filledBookBody⟩).store
    ⟨"", filledInstanceBody⟩).store

/-- The store reached from `storeAfterCreates` by deleting the Book through
`book_delete_post`. -/
def storeAfterDelete : Store :=
  (book_delete_post quietEnv storeAfterCreates ⟨"b1", emptyBody⟩).store

/-! ## Lemmas on the collection operations -/

theorem removeBook_others (books : List Book) (id : String) :
    (removeBook books id).filter (fun b => b._id != id) = books.filter (fun b => b._id != id) := by
  induction books with
  | nil => rfl
  | cons a t ih =>
    unfold removeBook at ih ⊢
    by_cases h : a._id = id
    · simp [List.eraseP_cons, h]
    · simp [List.eraseP_cons, h, List.filter_cons, ih]

theorem removeBook_absent (books : List Book) (id : String)
    (h : findBook books id = none) : removeBook books id = books := by
  unfold removeBook
  unfold findBook at h
  apply List.eraseP_of_forall_not
  intro b hb
  have := List.find?_eq_none.mp h b hb
  simpa using this

theorem removeBook_gone (books : List Book) (id : String)
    (hnd : (books.map (fun b => b._id)).Nodup) :
    ∀ b ∈ removeBook books id, b._id ≠ id := by
  induction books with
  | nil => intro b hb; simp [removeBook] at hb
  | cons a t ih =>
    have hnd' : (∀ x ∈ t, ¬x._id = a._id) ∧ (t.map (fun b => b._id)).Nodup := by
      simpa using hnd
    intro b hb
    unfold removeBook at ih hb
    by_cases h : a._id = id
    · simp [List.eraseP_cons, h] at hb
      intro hbid
      exact hnd'.1 b hb (by rw [hbid, h])
    · simp [List.eraseP_cons, h] at hb
      rcases hb with rfl | hb
      · exact h
      · exact ih hnd'.2 b hb

theorem removeBook_length (books : List Book) (id : String) (old : Book)
    (h : findBook books id = some old) :
    (removeBook books id).length + 1 = books.length := by
  unfold removeBook
  unfold findBook at h
  have hmem := List.mem_of_find?_eq_some h
  have hp := List.find?_some h
  rw [List.length_eraseP_of_mem hmem hp]
  have : 0 < books.length := List.length_pos_of_mem hmem
  omega

theorem updateFirst_length (id : String) (doc : Book) (books : List Book) :
    (updateFirst id doc books).length = books.length := by
  induction books with
  | nil => rfl
  | cons a t ih =>
    unfold updateFirst
    split <;> simp [ih]

theorem updateFirst_others (id : String) (doc : Book) (hdoc : doc._id = id) (books : List Book) :
    (updateFirst id doc books).filter (fun b => b._id != id)
      = books.filter (fun b => b._id != id) := by
  induction books with
  | nil => rfl
  | cons a t ih =>
    unfold updateFirst
    by_cases h : a._id = id
    · simp [h, List.filter_cons, applyUpdate, hdoc]
    · simp [h, List.filter_cons, ih]

theorem updateFirst_find (id : String) (doc : Book) (hdoc : doc._id = id) (books : List Book)
    (old : Book) (h : findBook books id = some old) :
    findBook (updateFirst id doc books) id = some (applyUpdate old doc) := by
  induction books with
  | nil => simp [findBook] at h
  | cons a t ih =>
    unfold updateFirst
    unfold findBook at h ih ⊢
    by_cases ha : a._id = id
    · simp [ha, List.find?_cons, applyUpdate, hdoc] at h ⊢
      subst h
      exact ⟨rfl, rfl, rfl, rfl⟩
    · simp [ha, List.find?_cons] at h ⊢
      exact ih h

theorem updateFirst_ids (id : String) (doc : Book) (hdoc : doc._id = id) (books : List Book) :
    (updateFirst id doc books).map (fun b => b._id) = books.map (fun b => b._id) := by
  induction books with
  | nil => rfl
  | cons a t ih =>
    unfold updateFirst
    by_cases h : a._id = id
    · simp [h, applyUpdate, hdoc]
    · simp [h, ih]

theorem findBook_id (books : List Book) (id : String) (b : Book)
    (h : findBook books id = some b) : b._id = id := by
  unfold findBook at h
  simpa using List.find?_some h

/-! ## Lemmas on the validation chains -/


theorem requiredText_text_same (k msg : String) (c : Chain) :
    (requiredText k msg c).body.text k = some (sanitized c.body k) := by
  simp [requiredText, sanitizeField, Body.set, sanitized, fieldString]

theorem requiredText_text_other (k msg j : String) (c : Chain) (h : j ≠ k) :
    (requiredText k msg c).body.text j = c.body.text j := by
  simp [requiredText, sanitizeField, Body.set, h]

theorem requiredText_genre (k msg : String) (c : Chain) :
    (requiredText k msg c).body.genre = c.body.genre := by
  simp [requiredText, sanitizeField, Body.set]

theorem escapeGenres_text (c : Chain) : (escapeGenres c).body.text = c.body.text := by
  unfold escapeGenres
  split <;> rfl

theorem escapeGenres_errors (c : Chain) : (escapeGenres c).errors = c.errors := by
  unfold escapeGenres
  split <;> rfl

theorem convertGenreToArray_text (b : Body) : (convertGenreToArray b).text = b.text := by
  unfold convertGenreToArray
  split <;> rfl

theorem bookChain_text (m1 m2 m3 m4 : String) (b : Body) :
    (bookChain m1 m2 m3 m4 b).body.text "title" = some (sanitized b "title") ∧
    (bookChain m1 m2 m3 m4 b).body.text "author" = some (sanitized b "author") ∧
    (bookChain m1 m2 m3 m4 b).body.text "summary" = some (sanitized b "summary") ∧
    (bookChain m1 m2 m3 m4 b).body.text "isbn" = some (sanitized b "isbn") := by
  unfold bookChain
  simp only [escapeGenres_text]
  refine ⟨?_, ?_, ?_, ?_⟩
  · rw [requiredText_text_other _ _ _ _ (by decide), requiredText_text_other _ _ _ _ (by decide),
      requiredText_text_other _ _ _ _ (by decide), requiredText_text_same]
    simp [sanitized, convertGenreToArray_text]
  · rw [requiredText_text_other _ _ _ _ (by decide), requiredText_text_other _ _ _ _ (by decide),
      requiredText_text_same]
    simp [sanitized, requiredText_text_other, convertGenreToArray_text]
  · rw [requiredText_text_other _ _ _ _ (by decide), requiredText_text_same]
    simp [sanitized, requiredText_text_other, convertGenreToArray_text]
  · rw [requiredText_text_same]
    simp [sanitized, requiredText_text_other, convertGenreToArray_text]

theorem bookChain_genre (m1 m2 m3 m4 : String) (b : Body) :
    (bookChain m1 m2 m3 m4 b).body.genre = .multi ((castGenre b.genre).map escape) := by
  unfold bookChain escapeGenres
  simp only [requiredText_genre]
  unfold convertGenreToArray
  cases hg : b.genre <;> simp [hg, castGenre]

/-! ## Genre conversion -/

/-- C3: the genre-converting middleware leaves `req.body.genre` an array for
every body (the empty array when the field is absent, the one-element array
when it holds a single value, the same array when it already is one), changes
no other field, and an array is what the rest of the book chain hands on. -/
theorem convertGenreToArray_normalizes (b : Body) (m1 m2 m3 m4 : String) :
    (convertGenreToArray b).genre.isArray = true ∧
    (convertGenreToArray b).genre =
      (match b.genre with
        | .absent => .multi []
        | .single v => .multi [v]
        | .multi vs => .multi vs) ∧
    (convertGenreToArray b).text = b.text ∧
    (bookChain m1 m2 m3 m4 b).body.genre.isArray = true := by
  refine ⟨?_, ?_, convertGenreToArray_text b, ?_⟩
  · unfold convertGenreToArray
    cases hg : b.genre <;> simp [hg, FormValue.isArray]
  · unfold convertGenreToArray
    cases hg : b.genre <;> simp [hg]
  · rw [bookChain_genre]
    rfl

/-! ## Detail handlers -/

/-- C4: when the queries report no error and no Book (for `book_detail`) or no
BookInstance (for `bookinstance_detail`) has the requested identifier, the
handler forwards an error with status 404 to `next`; it renders nothing and
leaves the store as it was. -/
theorem detail_not_found (env : Env) (store : Store) (req : Request) :
    (env.fails (.bookFindById req.id) = none →
      env.fails (.instanceFindByBook req.id) = none →
      (∀ b ∈ store.books, b._id ≠ req.id) →
      book_detail env store req =
        ⟨.forward ⟨"Error", "Book not found", some 404⟩, store,
          [.bookFindById req.id, .instanceFindByBook req.id]⟩) ∧
    (env.fails (.instanceFindById req.id) = none →
      (∀ bi ∈ store.bookinstances, bi._id ≠ req.id) →
      bookinstance_detail env store req =
        ⟨.forward ⟨"Error", "Book copy not found", some 404⟩, store,
          [.instanceFindById req.id]⟩) := by
  constructor
  · intro h1 h2 hno
    have hfind : findBook store.books req.id = none := by
      unfold findBook
      rw [List.find?_eq_none]
      intro b hb
      simpa using hno b hb
    simp [book_detail, h1, h2, hfind]
  · intro h1 hno
    have hfind : findInstance store.bookinstances req.id = none := by
      unfold findInstance
      rw [List.find?_eq_none]
      intro b hb
      simpa using hno b hb
    simp [bookinstance_detail, h1, hfind]

/-- Witness for C4 on the sample store and an unknown identifier. -/
theorem detail_not_found_witness :
    book_detail quietEnv sampleStore ⟨"zz", emptyBody⟩ =
        ⟨.forward ⟨"Error", "Book not found", some 404⟩, sampleStore,
          [.bookFindById "zz", .instanceFindByBook "zz"]⟩ ∧
      bookinstance_detail quietEnv sampleStore ⟨"zz", emptyBody⟩ =
        ⟨.forward ⟨"Error", "Book copy not found", some 404⟩, sampleStore,
          [.instanceFindById "zz"]⟩ :=
  ⟨(detail_not_found quietEnv sampleStore ⟨"zz", emptyBody⟩).1 rfl rfl (by decide),
    (detail_not_found quietEnv sampleStore ⟨"zz", emptyBody⟩).2 rfl (by decide)⟩

/-! ## Canonical paths -/

/-- C6 (code at the failing input): the `url` of every BookInstance is
`catalog/bookinstance/` followed by the key, so it starts with `c` and not
with a slash; reading the `url` of a Genre raises a ReferenceError; and
`bookinstance_create_post` redirects to the slash-less path after a save. -/
theorem url_virtuals (bi : BookInstance) (g : Genre) :
    bi.url = "catalog/bookinstance/" ++ bi._id ∧
    bi.url.data.head? = some 'c' ∧
    g.url = .error (referenceError "$") ∧
    (bookinstance_create_post quietEnv sampleStore ⟨"", filledInstanceBody⟩).outcome =
      .redirect "catalog/bookinstance/n1" := by
  refine ⟨rfl, ?_, rfl, by decide⟩
  simp [BookInstance.url, String.data_append]

/-! ## Deleting a Book -/

/-- C7: when `findByIdAndRemove` reports no error, `book_delete_post`
redirects to `/catalog/books`, leaves the BookInstances (those of the removed
Book included), the Authors and the Genres as they were, keeps every Book with
another identifier, in order, and no Book with the identifier remains when
identifiers are unique; without such a Book the collection is unchanged, with
one it loses exactly one record. -/
theorem book_delete_post_frame (env : Env) (store : Store) (req : Request)
    (hok : env.fails (.bookFindByIdAndRemove req.id) = none) :
    (book_delete_post env store req).outcome = .redirect "/catalog/books" ∧
    (book_delete_post env store req).ops = [.bookFindByIdAndRemove req.id] ∧
    (book_delete_post env store req).store.bookinstances = store.bookinstances ∧
    (book_delete_post env store req).store.authors = store.authors ∧
    (book_delete_post env store req).store.genres = store.genres ∧
    (book_delete_post env store req).store.books.filter (fun b => b._id != req.id) =
      store.books.filter (fun b => b._id != req.id) ∧
    ((store.books.map (fun b => b._id)).Nodup →
      ∀ b ∈ (book_delete_post env store req).store.books, b._id ≠ req.id) ∧
    (findBook store.books req.id = none →
      (book_delete_post env store req).store.books = store.books) ∧
    (∀ old, findBook store.books req.id = some old →
      (book_delete_post env store req).store.books.length + 1 = store.books.length) := by
  have hr : book_delete_post env store req =
      ⟨.redirect "/catalog/books", { store with books := removeBook store.books req.id },
        [.bookFindByIdAndRemove req.id]⟩ := by
    simp only [book_delete_post, hok]
  rw [hr]
  exact ⟨rfl, rfl, rfl, rfl, rfl, removeBook_others _ _, removeBook_gone _ _,
    removeBook_absent _ _, fun old h => removeBook_length _ _ old h⟩

/-- Witness for C7: deleting the sample Book, which has a copy. -/
theorem book_delete_post_frame_witness :
    (book_delete_post quietEnv sampleStore ⟨"b1", emptyBody⟩).outcome =
        .redirect "/catalog/books" ∧
      (book_delete_post quietEnv sampleStore ⟨"b1", emptyBody⟩).store.bookinstances =
        [sampleInstance] ∧
      (∀ b ∈ (book_delete_post quietEnv sampleStore ⟨"b1", emptyBody⟩).store.books,
        b._id ≠ "b1") :=
  ⟨(book_delete_post_frame quietEnv sampleStore ⟨"b1", emptyBody⟩ rfl).1,
    (book_delete_post_frame quietEnv sampleStore ⟨"b1", emptyBody⟩ rfl).2.2.1,
    (book_delete_post_frame quietEnv sampleStore ⟨"b1", emptyBody⟩ rfl).2.2.2.2.2.2.1
      (by decide)⟩

/-! ## Validation failures -/

/-- C1 (code at the failing input): a book form with a blank title has one
validation error, yet `book_create_post` calls `save` on the document built
from it under every environment and store; when `save` reports no error the
document is stored and the response is a redirect. -/
theorem book_create_post_saves_blank_title (env : Env) (store : Store) :
    (bookChain "Title must not be empty" "Author must be empty" "Summary must be empty"
        "ISBN must be empty" blankTitleBody).errors =
      [⟨"Title must not be empty", "title", ""⟩] ∧
    (book_create_post env store ⟨"", blankTitleBody⟩).ops =
      [.bookSave ⟨env.newId, some "", some "a1", some "Sand", some "111", ["g1"]⟩] ∧
    book_create_post quietEnv emptyStore ⟨"", blankTitleBody⟩ =
      ⟨.redirect "/catalog/book/n1",
        { emptyStore with
          books := [⟨"n1", some "", some "a1", some "Sand", some "111", ["g1"]⟩] },
        [.bookSave ⟨"n1", some "", some "a1", some "Sand", some "111", ["g1"]⟩]⟩ := by
  refine ⟨by decide, ?_, by decide⟩
  unfold book_create_post
  simp only [isEmptyProperty]
  simp
  split <;> simp [bookChain_text, bookChain_genre, sanitized, castGenre] <;> decide

/-- C2 (code at the failing inputs): with validation errors present and the
reference lists fetched without error, `book_update_post` and
`bookinstance_create_post` end in a ReferenceError and `book_create_post` in a
redirect after a save; none of them renders the form. -/
theorem validation_failure_outcomes (env : Env) (store : Store) :
    (bookChain "Title must not be empty." "Author must not be empty"
        "Summary must not be empty" "ISBN must not be empty" blankTitleBody).errors =
      [⟨"Title must not be empty.", "title", ""⟩] ∧
    book_update_post env store ⟨"b1", blankTitleBody⟩ =
      ⟨.throw (referenceError "err"), store, [.authorFind, .genreFind]⟩ ∧
    (bookinstanceChain quietEnv blankImprintBody).1.errors =
      [⟨"Imprint must be specified", "imprint", ""⟩] ∧
    bookinstance_create_post quietEnv store ⟨"", blankImprintBody⟩ =
      ⟨.throw (referenceError "books"), store, [.bookFindTitles]⟩ ∧
    (book_create_post quietEnv store ⟨"", blankTitleBody⟩).outcome =
      .redirect "/catalog/book/n1" :=
  ⟨by decide, rfl, by decide, rfl, rfl⟩

/-! ## Persistence errors -/

/-- C5 (code at the failing input): when the store reports the error `e`,
`bookinstance_delete_post` and `bookinstance_create_get` end in the
ReferenceError raised by reading `next`, which is not the forwarding of `e`. -/
theorem bookinstance_handlers_lose_error (e : JsError) (store : Store) (req : Request) :
    bookinstance_delete_post (failingEnv e) store req =
      ⟨.throw (referenceError "next"), store, [.instanceFindByIdAndRemove req.id]⟩ ∧
    bookinstance_create_get (failingEnv e) store req =
      ⟨.throw (referenceError "next"), store, [.bookFindTitles]⟩ ∧
    Outcome.throw (referenceError "next") ≠ Outcome.forward e :=
  ⟨rfl, rfl, by simp⟩

/-! ## Updating a Book -/

/-- C8 (amended): when the form passes validation, a Book with the requested
identifier exists and `findByIdAndUpdate` reports no error, `book_update_post`
redirects to that Book's canonical path, the collection keeps its length and
its identifiers position by position, the Book found under the identifier
afterwards carries the sanitized title, author, summary, isbn and genre, every
Book with another identifier is unchanged, and so are the other collections. -/
theorem book_update_post_replaces (env : Env) (store : Store) (req : Request) (old : Book)
    (hvalid : (bookChain "Title must not be empty." "Author must not be empty"
      "Summary must not be empty" "ISBN must not be empty" req.body).errors = [])
    (hfind : findBook store.books req.id = some old)
    (hok : ∀ doc, env.fails (.bookFindByIdAndUpdate req.id doc) = none) :
    (book_update_post env store req).outcome = .redirect (env.bookUrl req.id) ∧
    (book_update_post env store req).store.books.length = store.books.length ∧
    (book_update_post env store req).store.books.map (fun b => b._id) =
      store.books.map (fun b => b._id) ∧
    findBook (book_update_post env store req).store.books req.id =
      some (sanitizedBook req.id req.body) ∧
    (book_update_post env store req).store.books.filter (fun b => b._id != req.id) =
      store.books.filter (fun b => b._id != req.id) ∧
    (book_update_post env store req).store.bookinstances = store.bookinstances ∧
    (book_update_post env store req).store.authors = store.authors ∧
    (book_update_post env store req).store.genres = store.genres := by
  obtain ⟨ht, ha, hs, hi⟩ := bookChain_text "Title must not be empty."
    "Author must not be empty" "Summary must not be empty" "ISBN must not be empty" req.body
  have hg := bookChain_genre "Title must not be empty." "Author must not be empty"
    "Summary must not be empty" "ISBN must not be empty" req.body
  have hid := findBook_id _ _ _ hfind
  have hr : book_update_post env store req =
      ⟨.redirect (env.bookUrl req.id),
        { store with books := updateFirst req.id (sanitizedBook req.id req.body) store.books },
        [.bookFindByIdAndUpdate req.id (sanitizedBook req.id req.body)]⟩ := by
    simp [book_update_post, hvalid, isEmptyCall, hok, hfind, ht, ha, hs, hi, hg, castGenre, hid,
      sanitizedBook]
  rw [hr]
  refine ⟨rfl, updateFirst_length _ _ _,
    updateFirst_ids req.id (sanitizedBook req.id req.body) rfl _, ?_,
    updateFirst_others req.id (sanitizedBook req.id req.body) rfl _, rfl, rfl, rfl⟩
  show findBook (updateFirst req.id (sanitizedBook req.id req.body) store.books) req.id = _
  rw [updateFirst_find req.id (sanitizedBook req.id req.body) rfl store.books old hfind]
  simp [applyUpdate, setPath, sanitizedBook]

/-- Witness for C8: revising the sample Book. -/
theorem book_update_post_replaces_witness :
    (book_update_post quietEnv sampleStore ⟨"b1", revisedBookBody⟩).outcome =
        .redirect "/catalog/book/b1" ∧
      findBook (book_update_post quietEnv sampleStore ⟨"b1", revisedBookBody⟩).store.books "b1" =
        some (sanitizedBook "b1" revisedBookBody) :=
  ⟨(book_update_post_replaces quietEnv sampleStore ⟨"b1", revisedBookBody⟩ sampleBook
      (by decide) (by decide) (fun _ => rfl)).1,
    (book_update_post_replaces quietEnv sampleStore ⟨"b1", revisedBookBody⟩ sampleBook
      (by decide) (by decide) (fun _ => rfl)).2.2.2.1⟩

/-- C8 (counterexample): the form passes validation and the Book exists, but
`findByIdAndUpdate` reports an error: the handler forwards it, there is no
redirect and the stored Book keeps its old title. -/
theorem book_update_post_store_error :
    (bookChain "Title must not be empty." "Author must not be empty"
        "Summary must not be empty" "ISBN must not be empty" revisedBookBody).errors = [] ∧
      findBook sampleStore.books "b1" = some sampleBook ∧
      book_update_post (failingEnv storeError) sampleStore ⟨"b1", revisedBookBody⟩ =
        ⟨.forward storeError, sampleStore,
          [.bookFindByIdAndUpdate "b1"
            ⟨"b1", some "Dune Messiah", some "a2", some "Sand &amp; &lt;worms&gt;", some "333",
              ["g1", "g&lt;2&gt;"]⟩]⟩ ∧
      (findBook (book_update_post (failingEnv storeError) sampleStore
          ⟨"b1", revisedBookBody⟩).store.books "b1").map (fun b => b.title) =
        some (some "Dune") ∧
      sanitized revisedBookBody "title" = "Dune Messiah" := by
  decide

/-! ## BookInstance defaults -/

theorem validate_status (bi : BookInstance) (h : bi.validate = true) :
    bi.status ∈ statusEnum := by
  unfold BookInstance.validate at h
  simp only [Bool.and_eq_true] at h
  simpa using h.2

theorem bookinstanceChain_status (env : Env) (b : Body) :
    (bookinstanceChain env b).1.body.text "status" =
      some (escape (fieldString (b.text "status"))) := by
  unfold bookinstanceChain dueBackChain
  simp only [requiredText, sanitizeField, Body.set]
  split
  · simp
  · split <;> simp

theorem bookinstanceChain_due_back (env : Env) (b : Body) (h : b.text "due_back" = none) :
    (bookinstanceChain env b).2 = .undefined := by
  unfold bookinstanceChain dueBackChain
  simp [requiredText, sanitizeField, Body.set, h]

/-- C9 (code at the failing input): the schema default gives status
`Maintenance` to a BookInstance constructed with `status` undefined, and a
form without the `due_back` key yields the creation time; but for a form that
names a book and an imprint and leaves `status` out, the document
`bookinstance_create_post` builds has the empty string as status under every
environment, `save` rejects it and nothing is stored.  A `due_back` submitted
as the empty string is stored as null. -/
theorem bookinstance_create_post_status_omitted (env : Env) (store : Store) :
    noStatusBody.text "status" = none ∧
    (newBookInstance env (some "b1") (some "Ace 1990") none .undefined).status =
      "Maintenance" ∧
    (builtBookInstance env noStatusBody).due_back = some env.now ∧
    (builtBookInstance env noStatusBody).status = "" ∧
    (builtBookInstance env noStatusBody).status ≠ "Maintenance" ∧
    (builtBookInstance env noStatusBody).validate = false ∧
    bookinstance_create_post env store ⟨"", noStatusBody⟩ =
      ⟨.forward schemaError, store,
        [.instanceSave ⟨env.newId, some "b1", some "Ace 1990", "", some env.now⟩]⟩ ∧
    (builtBookInstance env blankDueBackBody).due_back = none := by
  have hs : (builtBookInstance env noStatusBody).status = "" := by
    simp only [builtBookInstance, newBookInstance, bookinstanceChain_status]
    decide
  have hd : (builtBookInstance env noStatusBody).due_back = some env.now := by
    simp [builtBookInstance, newBookInstance, bookinstanceChain_due_back env noStatusBody rfl]
  refine ⟨rfl, rfl, hd, hs, ?_, ?_, rfl, rfl⟩
  · rw [hs]
    decide
  · simp [BookInstance.validate, hs, requiredOk, statusEnum]

/-! ## BookInstance detail -/

/-- C10 (amended): when the query reports no error, the identifier names a
BookInstance and the Book it references is in the store, `bookinstance_detail`
renders the view `bookinstance_detail` with that BookInstance and the title
`Copy: ` followed by the title of the referenced Book. -/
theorem bookinstance_detail_renders (env : Env) (store : Store) (req : Request)
    (bi : BookInstance) (book : Book)
    (hok : env.fails (.instanceFindById req.id) = none)
    (hbi : findInstance store.bookinstances req.id = some bi)
    (hbook : populateBook store.books bi.book = some book) :
    bookinstance_detail env store req =
      ⟨.render "bookinstance_detail"
          (.bookinstanceDetail ("Copy: " ++ templateString book.title) bi book),
        store, [.instanceFindById req.id]⟩ := by
  simp [bookinstance_detail, hok, hbi, hbook]

/-- Witness for C10: the copy created through the handlers, before its Book
is deleted. -/
theorem bookinstance_detail_renders_witness :
    bookinstance_detail quietEnv storeAfterCreates ⟨"i1", emptyBody⟩ =
      ⟨.render "bookinstance_detail"
          (.bookinstanceDetail "Copy: Dune"
            ⟨"i1", some "b1", some "Ace 1990", "Available", some 1700000000000⟩
            ⟨"b1", some "Dune", some "a1", some "Sand &lt;worms&gt;", some "111", ["g1"]⟩),
        storeAfterCreates, [.instanceFindById "i1"]⟩ :=
  bookinstance_detail_renders quietEnv storeAfterCreates ⟨"i1", emptyBody⟩
    ⟨"i1", some "b1", some "Ace 1990", "Available", some 1700000000000⟩
    ⟨"b1", some "Dune", some "a1", some "Sand &lt;worms&gt;", some "111", ["g1"]⟩
    rfl (by decide) (by decide)

/-- C10 (counterexample): in the store reached by creating a Book and a copy
of it and then deleting the Book, all through the handlers, the copy still
exists and the query reports no error, yet `bookinstance_detail` renders
nothing: reading the title of the missing Book raises a TypeError. -/
theorem bookinstance_detail_after_book_delete :
    findInstance storeAfterDelete.bookinstances "i1" =
        some ⟨"i1", some "b1", some "Ace 1990", "Available", some 1700000000000⟩ ∧
      quietEnv.fails (.instanceFindById "i1") = none ∧
      storeAfterDelete.books = [] ∧
      bookinstance_detail quietEnv storeAfterDelete ⟨"i1", emptyBody⟩ =
        ⟨.throw (nullPropertyError "title"), storeAfterDelete, [.instanceFindById "i1"]⟩ := by
  decide

end LocalLibrary
